import Mathlib

/-!
Verification of the Pulse-Check business-analysis core (`src/analysis.py`).

The Python numeric tower is modelled by exact rationals (`ℚ`): Python ints are
arbitrary precision and every ratio here is a quotient of inputs, so exact
arithmetic is the faithful idealisation.  Python `round(x, n)` is modelled as
round-half-to-even at `n` decimal digits (`pyRound`), and
the percent format with one decimal as `fmtPercent1`.  A Python division raises `ZeroDivisionError`
when the divisor is zero; this partiality is modelled by `div?` in the
`Checked` variant of the metrics engine, while the plain engine mirrors the
source's guarded expressions directly.  The external text-generation
collaborator (`call_llm` in `src/llm_client.py`) is modelled as an explicit
stub `gen : Nat → String → Except GenError String` receiving the index of the
call and the prompt, so that call order and error propagation are observable.
-/

namespace PulseCheck

/-- Round-half-to-even to the nearest integer, as Python `round` does. -/
def roundHalfEven (q : ℚ) : ℤ :=
  if q - ⌊q⌋ < 1/2 then ⌊q⌋
  else if 1/2 < q - ⌊q⌋ then ⌊q⌋ + 1
  else if ⌊q⌋ % 2 = 0 then ⌊q⌋ else ⌊q⌋ + 1

/-- Python `round(q, n)`: round-half-even at `n` decimal digits. -/
def pyRound (q : ℚ) (n : ℕ) : ℚ :=
  (roundHalfEven (q * 10 ^ n) : ℚ) / 10 ^ n

/-- Checked division: `none` exactly when the divisor is zero, mirroring a
Python division that would raise `ZeroDivisionError`. -/
def div? (a b : ℚ) : Option ℚ :=
  if b = 0 then none else some (a / b)

/-- Fixed-point rendering of `q` with exactly one digit after the decimal
point (the body of Python `f-string` formatting with `.1f`, applied after
scaling for `.1%`). -/
def fmtFixed1 (q : ℚ) : String :=
  (if roundHalfEven (q * 10) < 0 then "-" else "")
    ++ toString ((roundHalfEven (q * 10)).natAbs / 10)
    ++ "." ++ toString ((roundHalfEven (q * 10)).natAbs % 10)

/-- Python percent formatting with one decimal place (`.1%`). -/
def fmtPercent1 (q : ℚ) : String :=
  fmtFixed1 (q * 100) ++ "%"

/-- Evaluation rule for `roundHalfEven` when `q` lies in `[z, z + 1/2)`. -/
theorem roundHalfEven_lo {q : ℚ} {z : ℤ} (h1 : (z : ℚ) ≤ q) (h2 : q < z + 1/2) :
    roundHalfEven q = z := by
  have hf : ⌊q⌋ = z := Int.floor_eq_iff.mpr ⟨h1, by linarith⟩
  unfold roundHalfEven
  rw [hf, if_pos (by linarith)]

/-- Evaluation rule for `roundHalfEven` when `q` lies in `(z + 1/2, z + 1)`. -/
theorem roundHalfEven_hi {q : ℚ} {z : ℤ} (h1 : (z : ℚ) + 1/2 < q) (h2 : q < z + 1) :
    roundHalfEven q = z + 1 := by
  have hf : ⌊q⌋ = z := Int.floor_eq_iff.mpr ⟨by linarith, h2⟩
  unfold roundHalfEven
  rw [hf, if_neg (by linarith), if_pos (by linarith)]

/-- `pyRound` in terms of an already-evaluated `roundHalfEven`. -/
theorem pyRound_eval {q : ℚ} {n : ℕ} {z : ℤ} (h : roundHalfEven (q * 10 ^ n) = z) :
    pyRound q n = (z : ℚ) / 10 ^ n := by
  unfold pyRound; rw [h]

/-- `fmtFixed1` in terms of an already-evaluated `roundHalfEven`. -/
theorem fmtFixed1_eval {q : ℚ} {n : ℤ} (h : roundHalfEven (q * 10) = n) :
    fmtFixed1 q =
      (if n < 0 then "-" else "") ++ toString (n.natAbs / 10) ++ "."
        ++ toString (n.natAbs % 10) := by
  unfold fmtFixed1; rw [h]

/-- `fmtPercent1` in terms of an already-evaluated `roundHalfEven`. -/
theorem fmtPercent1_eval {q : ℚ} {n : ℤ} (h : roundHalfEven (q * 100 * 10) = n) :
    fmtPercent1 q =
      (if n < 0 then "-" else "") ++ toString (n.natAbs / 10) ++ "."
        ++ toString (n.natAbs % 10) ++ "%" := by
  unfold fmtPercent1
  rw [fmtFixed1_eval h]

/-- The raw financial input record (the parameters of `financial_analysis`,
`src/analysis.py:79-85`), with the source's defaults `stock_price=0`,
`shares_outstanding=1`. -/
structure RawFinancialInputs where
  Revenue : ℚ
  COGS : ℚ
  Gross_Profit : ℚ
  Sales_and_Marketing : ℚ
  Research_and_Development : ℚ
  General_and_Administrative : ℚ
  EBITDA : ℚ
  Depreciation_and_Amortization : ℚ
  EBIT : ℚ
  Interest_Expense : ℚ
  Net_Income : ℚ
  cash_equivalents : ℚ
  accounts_receivable : ℚ
  inventory : ℚ
  fixed_assets_ppe : ℚ
  intangible_assets : ℚ
  accounts_payable : ℚ
  accrued_expenses : ℚ
  long_term_debt : ℚ
  shareholders_equity : ℚ
  stock_price : ℚ := 0
  shares_outstanding : ℚ := 1

/-- `Current_Assets` (`src/analysis.py:91`). -/
def Current_Assets (i : RawFinancialInputs) : ℚ :=
  i.cash_equivalents + i.accounts_receivable + i.inventory

/-- `Total_Assets` (`src/analysis.py:92`). -/
def Total_Assets (i : RawFinancialInputs) : ℚ :=
  Current_Assets i + i.fixed_assets_ppe + i.intangible_assets

/-- `Current_Liab` (`src/analysis.py:93`). -/
def Current_Liab (i : RawFinancialInputs) : ℚ :=
  i.accounts_payable + i.accrued_expenses

/-- `NWC` (`src/analysis.py:94`). -/
def NWC (i : RawFinancialInputs) : ℚ :=
  Current_Assets i - Current_Liab i

/-- `current_ratio` (`src/analysis.py:96`); the Python guard `if Current_Liab`
is truthiness, i.e. nonzero. -/
def current_ratio (i : RawFinancialInputs) : ℚ :=
  if Current_Liab i ≠ 0 then Current_Assets i / Current_Liab i else 0

/-- `quick_ratio` (`src/analysis.py:97`). -/
def quick_ratio (i : RawFinancialInputs) : ℚ :=
  if Current_Liab i ≠ 0 then (Current_Assets i - i.inventory) / Current_Liab i else 0

/-- `cash_ratio` (`src/analysis.py:98`). -/
def cash_ratio (i : RawFinancialInputs) : ℚ :=
  if Current_Liab i ≠ 0 then i.cash_equivalents / Current_Liab i else 0

/-- `interval_measure` (`src/analysis.py:99`). -/
def interval_measure (i : RawFinancialInputs) : ℚ :=
  if i.COGS ≠ 0 then Current_Assets i / (i.COGS / 365) else 0

/-- `total_debt_ratio` (`src/analysis.py:101`). -/
def total_debt_ratio (i : RawFinancialInputs) : ℚ :=
  if Total_Assets i ≠ 0 then (Total_Assets i - i.shareholders_equity) / Total_Assets i else 0

/-- `equity_multiplier` (`src/analysis.py:102`). -/
def equity_multiplier (i : RawFinancialInputs) : ℚ :=
  if i.shareholders_equity ≠ 0 then Total_Assets i / i.shareholders_equity else 0

/-- `ltd_ratio` (`src/analysis.py:103`). -/
def ltd_ratio (i : RawFinancialInputs) : ℚ :=
  if i.long_term_debt + i.shareholders_equity ≠ 0 then
    i.long_term_debt / (i.long_term_debt + i.shareholders_equity)
  else 0

/-- `tie` (`src/analysis.py:104`). -/
def tie (i : RawFinancialInputs) : ℚ :=
  if i.Interest_Expense ≠ 0 then i.EBIT / i.Interest_Expense else 0

/-- `cash_coverage` (`src/analysis.py:105`). -/
def cash_coverage (i : RawFinancialInputs) : ℚ :=
  if i.Interest_Expense ≠ 0 then i.EBITDA / i.Interest_Expense else 0

/-- `total_asset_turnover` (`src/analysis.py:107`). -/
def total_asset_turnover (i : RawFinancialInputs) : ℚ :=
  if Total_Assets i ≠ 0 then i.Revenue / Total_Assets i else 0

/-- `nwc_turnover` (`src/analysis.py:108`). -/
def nwc_turnover (i : RawFinancialInputs) : ℚ :=
  if NWC i ≠ 0 then i.Revenue / NWC i else 0

/-- `fixed_asset_turnover` (`src/analysis.py:109`). -/
def fixed_asset_turnover (i : RawFinancialInputs) : ℚ :=
  if i.fixed_assets_ppe ≠ 0 then i.Revenue / i.fixed_assets_ppe else 0

/-- `gross_margin` (`src/analysis.py:111`). -/
def gross_margin (i : RawFinancialInputs) : ℚ :=
  if i.Revenue ≠ 0 then i.Gross_Profit / i.Revenue else 0

/-- `profit_margin` (`src/analysis.py:112`). -/
def profit_margin (i : RawFinancialInputs) : ℚ :=
  if i.Revenue ≠ 0 then i.Net_Income / i.Revenue else 0

/-- `roa` (`src/analysis.py:113`). -/
def roa (i : RawFinancialInputs) : ℚ :=
  if Total_Assets i ≠ 0 then i.Net_Income / Total_Assets i else 0

/-- `roe` (`src/analysis.py:114`). -/
def roe (i : RawFinancialInputs) : ℚ :=
  if i.shareholders_equity ≠ 0 then i.Net_Income / i.shareholders_equity else 0

/-- `dupont_roe` (`src/analysis.py:116`): product of the three unrounded
DuPont levers. -/
def dupont_roe (i : RawFinancialInputs) : ℚ :=
  profit_margin i * total_asset_turnover i * equity_multiplier i

/-- `market_cap` (`src/analysis.py:118`). -/
def market_cap (i : RawFinancialInputs) : ℚ :=
  i.stock_price * i.shares_outstanding

/-- `pe_ratio` (`src/analysis.py:119`); the Python guard is
`if Net_Income and shares_outstanding`, i.e. both nonzero. -/
def pe_ratio (i : RawFinancialInputs) : ℚ :=
  if i.Net_Income ≠ 0 ∧ i.shares_outstanding ≠ 0 then
    i.stock_price / (i.Net_Income / i.shares_outstanding)
  else 0

/-- `market_to_book` (`src/analysis.py:120`). -/
def market_to_book (i : RawFinancialInputs) : ℚ :=
  if i.shareholders_equity ≠ 0 then market_cap i / i.shareholders_equity else 0

/-- `price_sales` (`src/analysis.py:121`). -/
def price_sales (i : RawFinancialInputs) : ℚ :=
  if i.Revenue ≠ 0 then market_cap i / i.Revenue else 0

/-- `enterprise_value` (`src/analysis.py:122`). -/
def enterprise_value (i : RawFinancialInputs) : ℚ :=
  market_cap i + i.long_term_debt - i.cash_equivalents

/-- `ev_ebitda` (`src/analysis.py:123`). -/
def ev_ebitda (i : RawFinancialInputs) : ℚ :=
  if i.EBITDA ≠ 0 then enterprise_value i / i.EBITDA else 0

/-- `inv_turnover` (`src/analysis.py:125`). -/
def inv_turnover (i : RawFinancialInputs) : ℚ :=
  if i.inventory ≠ 0 then i.COGS / i.inventory else 0

/-- `days_sales_inv` (`src/analysis.py:126`). -/
def days_sales_inv (i : RawFinancialInputs) : ℚ :=
  if inv_turnover i ≠ 0 then 365 / inv_turnover i else 0

/-- `rec_turnover` (`src/analysis.py:127`). -/
def rec_turnover (i : RawFinancialInputs) : ℚ :=
  if i.accounts_receivable ≠ 0 then i.Revenue / i.accounts_receivable else 0

/-- `days_sales_rec` (`src/analysis.py:128`). -/
def days_sales_rec (i : RawFinancialInputs) : ℚ :=
  if rec_turnover i ≠ 0 then 365 / rec_turnover i else 0

/-- The `FinancialMetricsReport`: the nested dict built at
`src/analysis.py:130-143`, flattened to one record.  Field order follows the
key order of the source literal: section `Liquidity` (`Current`, `Quick`,
`Cash`, `Interval`), `Solvency` (`Debt Ratio`, `Multiplier`, `LTD`, `TIE`,
`Cash Coverage`), `Turnover` (`Total Asset`, `NWC`, `Fixed Asset`),
`Profitability` (`Gross Margin`, `Profit Margin`, `ROA`, `ROE`),
`DuPont_Breakdown` (`Profitability_Lever`, `Efficiency_Lever`,
`Leverage_Lever`, `Calculated_ROE`), `Market` (`P/E`, `Market/Book`,
`Price/Sales`, `EV`, `EV_EBITDA`), `Operational` (`Inv_Turnover`, `DSI`,
`Rec_Turnover`, `DSO`). -/
structure FinReport where
  Current : ℚ
  Quick : ℚ
  Cash : ℚ
  Interval : ℚ
  Debt_Ratio : ℚ
  Multiplier : ℚ
  LTD : ℚ
  TIE : ℚ
  Cash_Coverage : ℚ
  Total_Asset : ℚ
  NWC_Turnover : ℚ
  Fixed_Asset : ℚ
  Gross_Margin : ℚ
  Profit_Margin : ℚ
  ROA : ℚ
  ROE : ℚ
  Profitability_Lever : ℚ
  Efficiency_Lever : ℚ
  Leverage_Lever : ℚ
  Calculated_ROE : ℚ
  PE : ℚ
  Market_Book : ℚ
  Price_Sales : ℚ
  EV : ℚ
  EV_EBITDA : ℚ
  Inv_Turnover : ℚ
  DSI : ℚ
  Rec_Turnover : ℚ
  DSO : ℚ

/-- The `financial_results` dict (`src/analysis.py:130-143`), with the
source's rounding: 2 decimals for multiples/days/currency, 4 decimals for
margins/returns (and `Price/Sales`, rounded to 4 in the source). -/
def financial_results (i : RawFinancialInputs) : FinReport where
  Current := pyRound (current_ratio i) 2
  Quick := pyRound (quick_ratio i) 2
  Cash := pyRound (cash_ratio i) 2
  Interval := pyRound (interval_measure i) 2
  Debt_Ratio := pyRound (total_debt_ratio i) 2
  Multiplier := pyRound (equity_multiplier i) 2
  LTD := pyRound (ltd_ratio i) 2
  TIE := pyRound (tie i) 2
  Cash_Coverage := pyRound (cash_coverage i) 2
  Total_Asset := pyRound (total_asset_turnover i) 2
  NWC_Turnover := pyRound (nwc_turnover i) 2
  Fixed_Asset := pyRound (fixed_asset_turnover i) 2
  Gross_Margin := pyRound (gross_margin i) 4
  Profit_Margin := pyRound (profit_margin i) 4
  ROA := pyRound (roa i) 4
  ROE := pyRound (roe i) 4
  Profitability_Lever := pyRound (profit_margin i) 4
  Efficiency_Lever := pyRound (total_asset_turnover i) 2
  Leverage_Lever := pyRound (equity_multiplier i) 2
  Calculated_ROE := pyRound (dupont_roe i) 4
  PE := pyRound (pe_ratio i) 2
  Market_Book := pyRound (market_to_book i) 2
  Price_Sales := pyRound (price_sales i) 4
  EV := pyRound (enterprise_value i) 2
  EV_EBITDA := pyRound (ev_ebitda i) 2
  Inv_Turnover := pyRound (inv_turnover i) 2
  DSI := pyRound (days_sales_inv i) 2
  Rec_Turnover := pyRound (rec_turnover i) 2
  DSO := pyRound (days_sales_rec i) 2

/-- Checked variants of the ratio computations: every Python division is
performed through `div?`, which fails (modelling `ZeroDivisionError`) when its
divisor is zero, while the `if` guards mirror the source exactly
(`src/analysis.py:96-128`).  One definition per source line. -/
def current_ratioChecked (i : RawFinancialInputs) : Option ℚ :=
  if Current_Liab i ≠ 0 then div? (Current_Assets i) (Current_Liab i) else pure 0

/-- Checked `quick_ratio` (`src/analysis.py:97`). -/
def quick_ratioChecked (i : RawFinancialInputs) : Option ℚ :=
  if Current_Liab i ≠ 0 then div? (Current_Assets i - i.inventory) (Current_Liab i) else pure 0

/-- Checked `cash_ratio` (`src/analysis.py:98`). -/
def cash_ratioChecked (i : RawFinancialInputs) : Option ℚ :=
  if Current_Liab i ≠ 0 then div? i.cash_equivalents (Current_Liab i) else pure 0

/-- Checked `interval_measure` (`src/analysis.py:99`); note the divisor is
itself the quotient `COGS / 365`. -/
def interval_measureChecked (i : RawFinancialInputs) : Option ℚ :=
  if i.COGS ≠ 0 then div? (Current_Assets i) (i.COGS / 365) else pure 0

/-- Checked `total_debt_ratio` (`src/analysis.py:101`). -/
def total_debt_ratioChecked (i : RawFinancialInputs) : Option ℚ :=
  if Total_Assets i ≠ 0 then div? (Total_Assets i - i.shareholders_equity) (Total_Assets i) else pure 0

/-- Checked `equity_multiplier` (`src/analysis.py:102`). -/
def equity_multiplierChecked (i : RawFinancialInputs) : Option ℚ :=
  if i.shareholders_equity ≠ 0 then div? (Total_Assets i) i.shareholders_equity else pure 0

/-- Checked `ltd_ratio` (`src/analysis.py:103`). -/
def ltd_ratioChecked (i : RawFinancialInputs) : Option ℚ :=
  if i.long_term_debt + i.shareholders_equity ≠ 0 then
    div? i.long_term_debt (i.long_term_debt + i.shareholders_equity)
  else pure 0

/-- Checked `tie` (`src/analysis.py:104`). -/
def tieChecked (i : RawFinancialInputs) : Option ℚ :=
  if i.Interest_Expense ≠ 0 then div? i.EBIT i.Interest_Expense else pure 0

/-- Checked `cash_coverage` (`src/analysis.py:105`). -/
def cash_coverageChecked (i : RawFinancialInputs) : Option ℚ :=
  if i.Interest_Expense ≠ 0 then div? i.EBITDA i.Interest_Expense else pure 0

/-- Checked `total_asset_turnover` (`src/analysis.py:107`). -/
def total_asset_turnoverChecked (i : RawFinancialInputs) : Option ℚ :=
  if Total_Assets i ≠ 0 then div? i.Revenue (Total_Assets i) else pure 0

/-- Checked `nwc_turnover` (`src/analysis.py:108`). -/
def nwc_turnoverChecked (i : RawFinancialInputs) : Option ℚ :=
  if NWC i ≠ 0 then div? i.Revenue (NWC i) else pure 0

/-- Checked `fixed_asset_turnover` (`src/analysis.py:109`). -/
def fixed_asset_turnoverChecked (i : RawFinancialInputs) : Option ℚ :=
  if i.fixed_assets_ppe ≠ 0 then div? i.Revenue i.fixed_assets_ppe else pure 0

/-- Checked `gross_margin` (`src/analysis.py:111`). -/
def gross_marginChecked (i : RawFinancialInputs) : Option ℚ :=
  if i.Revenue ≠ 0 then div? i.Gross_Profit i.Revenue else pure 0

/-- Checked `profit_margin` (`src/analysis.py:112`). -/
def profit_marginChecked (i : RawFinancialInputs) : Option ℚ :=
  if i.Revenue ≠ 0 then div? i.Net_Income i.Revenue else pure 0

/-- Checked `roa` (`src/analysis.py:113`). -/
def roaChecked (i : RawFinancialInputs) : Option ℚ :=
  if Total_Assets i ≠ 0 then div? i.Net_Income (Total_Assets i) else pure 0

/-- Checked `roe` (`src/analysis.py:114`). -/
def roeChecked (i : RawFinancialInputs) : Option ℚ :=
  if i.shareholders_equity ≠ 0 then div? i.Net_Income i.shareholders_equity else pure 0

/-- Checked `pe_ratio` (`src/analysis.py:119`): the nested division
`Net_Income / shares_outstanding` is checked too. -/
def pe_ratioChecked (i : RawFinancialInputs) : Option ℚ :=
  if i.Net_Income ≠ 0 ∧ i.shares_outstanding ≠ 0 then
    (div? i.Net_Income i.shares_outstanding).bind fun eps => div? i.stock_price eps
  else pure 0

/-- Checked `market_to_book` (`src/analysis.py:120`). -/
def market_to_bookChecked (i : RawFinancialInputs) : Option ℚ :=
  if i.shareholders_equity ≠ 0 then div? (market_cap i) i.shareholders_equity else pure 0

/-- Checked `price_sales` (`src/analysis.py:121`). -/
def price_salesChecked (i : RawFinancialInputs) : Option ℚ :=
  if i.Revenue ≠ 0 then div? (market_cap i) i.Revenue else pure 0

/-- Checked `ev_ebitda` (`src/analysis.py:123`). -/
def ev_ebitdaChecked (i : RawFinancialInputs) : Option ℚ :=
  if i.EBITDA ≠ 0 then div? (enterprise_value i) i.EBITDA else pure 0

/-- Checked `inv_turnover` (`src/analysis.py:125`). -/
def inv_turnoverChecked (i : RawFinancialInputs) : Option ℚ :=
  if i.inventory ≠ 0 then div? i.COGS i.inventory else pure 0

/-- Checked `days_sales_inv` (`src/analysis.py:126`): its guard and divisor
are the previously computed `inv_turnover` value. -/
def days_sales_invChecked (i : RawFinancialInputs) : Option ℚ :=
  (inv_turnoverChecked i).bind fun t => if t ≠ 0 then div? 365 t else pure 0

/-- Checked `rec_turnover` (`src/analysis.py:127`). -/
def rec_turnoverChecked (i : RawFinancialInputs) : Option ℚ :=
  if i.accounts_receivable ≠ 0 then div? i.Revenue i.accounts_receivable else pure 0

/-- Checked `days_sales_rec` (`src/analysis.py:128`). -/
def days_sales_recChecked (i : RawFinancialInputs) : Option ℚ :=
  (rec_turnoverChecked i).bind fun t => if t ≠ 0 then div? 365 t else pure 0

/-- The raw marketing input record (the parameters of
`analyze_marketing_performance`, `src/analysis.py:149-152`). -/
structure RawMarketingInputs where
  Revenue : ℚ
  marketing_spend : ℚ
  new_customers_acquired : ℚ
  total_customers_start_period : ℚ
  total_customers_end_period : ℚ
  avg_revenue_per_user_monthly : ℚ
  gross_margin_pct : ℚ
  expansion_revenue : ℚ

/-- `cac` (`src/analysis.py:158`). -/
def cac (m : RawMarketingInputs) : ℚ :=
  if m.new_customers_acquired > 0 then m.marketing_spend / m.new_customers_acquired else 0

/-- `lost_customers` (`src/analysis.py:160`). -/
def lost_customers (m : RawMarketingInputs) : ℚ :=
  (m.total_customers_start_period + m.new_customers_acquired) - m.total_customers_end_period

/-- `churn_rate` (`src/analysis.py:161`). -/
def churn_rate (m : RawMarketingInputs) : ℚ :=
  if m.total_customers_start_period > 0 then lost_customers m / m.total_customers_start_period else 0

/-- `retention_rate` (`src/analysis.py:162`). -/
def retention_rate (m : RawMarketingInputs) : ℚ :=
  1 - churn_rate m

/-- `starting_rev` (`src/analysis.py:164`). -/
def starting_rev (m : RawMarketingInputs) : ℚ :=
  m.total_customers_start_period * m.avg_revenue_per_user_monthly

/-- `nrr` (`src/analysis.py:165`). -/
def nrr (m : RawMarketingInputs) : ℚ :=
  if starting_rev m > 0 then
    (starting_rev m + m.expansion_revenue - (lost_customers m * m.avg_revenue_per_user_monthly)) / starting_rev m
  else 0

/-- `ltv` (`src/analysis.py:167`). -/
def ltv (m : RawMarketingInputs) : ℚ :=
  if churn_rate m > 0 then (m.avg_revenue_per_user_monthly * m.gross_margin_pct) / churn_rate m else 0

/-- `ltv_cac_ratio` (`src/analysis.py:169`). -/
def ltv_cac_ratio (m : RawMarketingInputs) : ℚ :=
  if cac m > 0 then ltv m / cac m else 0

/-- `payback_period` (`src/analysis.py:170`). -/
def payback_period (m : RawMarketingInputs) : ℚ :=
  if m.avg_revenue_per_user_monthly > 0 ∧ m.gross_margin_pct > 0 then
    cac m / (m.avg_revenue_per_user_monthly * m.gross_margin_pct)
  else 0

/-- `marketing_efficiency_ratio` (`src/analysis.py:172`). -/
def marketing_efficiency_ratio (m : RawMarketingInputs) : ℚ :=
  if m.marketing_spend > 0 then m.Revenue / m.marketing_spend else 0

/-- `marketing_spend_pct` (`src/analysis.py:173`). -/
def marketing_spend_pct (m : RawMarketingInputs) : ℚ :=
  if m.Revenue > 0 then m.marketing_spend / m.Revenue else 0

/-- The `MarketingMetricsReport`: the nested dict built at
`src/analysis.py:175-192`, flattened to one record.  Field order follows the
key order of the source literal: section `Acquisition` (`CAC`,
`Marketing_Spend_Pct`, `Marketing_Efficiency_Ratio`), then
`Retention_and_Value` (`Retention_Rate`, `Churn_Rate`,
`Net_Revenue_Retention`, `LTV`), then `Unit_Economics` (`LTV_CAC_Ratio`,
`Payback_Period_Months`, `Status`). -/
structure MktReport where
  CAC : ℚ
  Marketing_Spend_Pct : String
  Marketing_Efficiency_Ratio : ℚ
  Retention_Rate : String
  Churn_Rate : String
  Net_Revenue_Retention : String
  LTV : ℚ
  LTV_CAC_Ratio : ℚ
  Payback_Period_Months : ℚ
  Status : String

/-- The `marketing_results` dict (`src/analysis.py:175-192`). -/
def marketing_results (m : RawMarketingInputs) : MktReport where
  CAC := pyRound (cac m) 2
  Marketing_Spend_Pct := fmtPercent1 (marketing_spend_pct m)
  Marketing_Efficiency_Ratio := pyRound (marketing_efficiency_ratio m) 2
  Retention_Rate := fmtPercent1 (retention_rate m)
  Churn_Rate := fmtPercent1 (churn_rate m)
  Net_Revenue_Retention := fmtPercent1 (nrr m)
  LTV := pyRound (ltv m) 2
  LTV_CAC_Ratio := pyRound (ltv_cac_ratio m) 2
  Payback_Period_Months := pyRound (payback_period m) 1
  Status := if ltv_cac_ratio m ≥ 3 then "Healthy" else "Needs Optimization"

/-- Decimal digits of `n`, left-padded with zeros to width `k`. -/
def natDigitsPadded (n k : ℕ) : String :=
  let s := toString n
  String.mk (List.replicate (k - s.length) '0') ++ s

/-- Drop trailing zero digits (at least one digit is kept). -/
def trimTrailingZeros (s : String) : String :=
  let l := (s.data.reverse.dropWhile (fun c => c = '0')).reverse
  if l.isEmpty then "0" else String.mk l

/-- Decimal rendering of a rational for the JSON dump of a report.  Every
leaf of a report is a value of `pyRound _ n` with `n ≤ 4`, so its reduced
denominator divides `10000` and it has an exact decimal form; other rationals
fall back to a fraction rendering. -/
def qRepr (q : ℚ) : String :=
  let sign : String := if q < 0 then "-" else ""
  let n : ℕ := q.num.natAbs
  if q.den = 1 then sign ++ toString n
  else if 10000 % q.den = 0 then
    let m : ℕ := n * (10000 / q.den)
    sign ++ toString (m / 10000) ++ "." ++ trimTrailingZeros (natDigitsPadded (m % 10000) 4)
  else sign ++ toString n ++ "/" ++ toString q.den

/-- A JSON string literal (report string values contain no escapes). -/
def jstr (s : String) : String := "\"" ++ s ++ "\""

/-- `json.dumps(financial_results, indent=2)`: the nested two-level dict of
`src/analysis.py:130-143` in its literal key order, pretty-printed with
two-space indentation. -/
def jsonDumpsFin (r : FinReport) : String :=
  "\x7b\n"
  ++ "  \"Liquidity\": \x7b\n"
  ++ "    \"Current\": " ++ qRepr r.Current ++ ",\n"
  ++ "    \"Quick\": " ++ qRepr r.Quick ++ ",\n"
  ++ "    \"Cash\": " ++ qRepr r.Cash ++ ",\n"
  ++ "    \"Interval\": " ++ qRepr r.Interval ++ "\n"
  ++ "  \x7d,\n"
  ++ "  \"Solvency\": \x7b\n"
  ++ "    \"Debt Ratio\": " ++ qRepr r.Debt_Ratio ++ ",\n"
  ++ "    \"Multiplier\": " ++ qRepr r.Multiplier ++ ",\n"
  ++ "    \"LTD\": " ++ qRepr r.LTD ++ ",\n"
  ++ "    \"TIE\": " ++ qRepr r.TIE ++ ",\n"
  ++ "    \"Cash Coverage\": " ++ qRepr r.Cash_Coverage ++ "\n"
  ++ "  \x7d,\n"
  ++ "  \"Turnover\": \x7b\n"
  ++ "    \"Total Asset\": " ++ qRepr r.Total_Asset ++ ",\n"
  ++ "    \"NWC\": " ++ qRepr r.NWC_Turnover ++ ",\n"
  ++ "    \"Fixed Asset\": " ++ qRepr r.Fixed_Asset ++ "\n"
  ++ "  \x7d,\n"
  ++ "  \"Profitability\": \x7b\n"
  ++ "    \"Gross Margin\": " ++ qRepr r.Gross_Margin ++ ",\n"
  ++ "    \"Profit Margin\": " ++ qRepr r.Profit_Margin ++ ",\n"
  ++ "    \"ROA\": " ++ qRepr r.ROA ++ ",\n"
  ++ "    \"ROE\": " ++ qRepr r.ROE ++ "\n"
  ++ "  \x7d,\n"
  ++ "  \"DuPont_Breakdown\": \x7b\n"
  ++ "    \"Profitability_Lever\": " ++ qRepr r.Profitability_Lever ++ ",\n"
  ++ "    \"Efficiency_Lever\": " ++ qRepr r.Efficiency_Lever ++ ",\n"
  ++ "    \"Leverage_Lever\": " ++ qRepr r.Leverage_Lever ++ ",\n"
  ++ "    \"Calculated_ROE\": " ++ qRepr r.Calculated_ROE ++ "\n"
  ++ "  \x7d,\n"
  ++ "  \"Market\": \x7b\n"
  ++ "    \"P/E\": " ++ qRepr r.PE ++ ",\n"
  ++ "    \"Market/Book\": " ++ qRepr r.Market_Book ++ ",\n"
  ++ "    \"Price/Sales\": " ++ qRepr r.Price_Sales ++ ",\n"
  ++ "    \"EV\": " ++ qRepr r.EV ++ ",\n"
  ++ "    \"EV_EBITDA\": " ++ qRepr r.EV_EBITDA ++ "\n"
  ++ "  \x7d,\n"
  ++ "  \"Operational\": \x7b\n"
  ++ "    \"Inv_Turnover\": " ++ qRepr r.Inv_Turnover ++ ",\n"
  ++ "    \"DSI\": " ++ qRepr r.DSI ++ ",\n"
  ++ "    \"Rec_Turnover\": " ++ qRepr r.Rec_Turnover ++ ",\n"
  ++ "    \"DSO\": " ++ qRepr r.DSO ++ "\n"
  ++ "  \x7d\n"
  ++ "\x7d"

/-- `json.dumps(marketing_results, indent=2)`: the nested dict of
`src/analysis.py:175-192` in its literal key order. -/
def jsonDumpsMkt (r : MktReport) : String :=
  "\x7b\n"
  ++ "  \"Acquisition\": \x7b\n"
  ++ "    \"CAC\": " ++ qRepr r.CAC ++ ",\n"
  ++ "    \"Marketing_Spend_Pct\": " ++ jstr r.Marketing_Spend_Pct ++ ",\n"
  ++ "    \"Marketing_Efficiency_Ratio\": " ++ qRepr r.Marketing_Efficiency_Ratio ++ "\n"
  ++ "  \x7d,\n"
  ++ "  \"Retention_and_Value\": \x7b\n"
  ++ "    \"Retention_Rate\": " ++ jstr r.Retention_Rate ++ ",\n"
  ++ "    \"Churn_Rate\": " ++ jstr r.Churn_Rate ++ ",\n"
  ++ "    \"Net_Revenue_Retention\": " ++ jstr r.Net_Revenue_Retention ++ ",\n"
  ++ "    \"LTV\": " ++ qRepr r.LTV ++ "\n"
  ++ "  \x7d,\n"
  ++ "  \"Unit_Economics\": \x7b\n"
  ++ "    \"LTV_CAC_Ratio\": " ++ qRepr r.LTV_CAC_Ratio ++ ",\n"
  ++ "    \"Payback_Period_Months\": " ++ qRepr r.Payback_Period_Months ++ ",\n"
  ++ "    \"Status\": " ++ jstr r.Status ++ "\n"
  ++ "  \x7d\n"
  ++ "\x7d"

/-- The fixed "Fractional CFO" instruction template of
`construct_prompt_financial` (`src/analysis.py:11-25`), up to the embedded
data. -/
def cfoPromptHeader : String :=
  "You are a Senior Strategic Business Consultant and Fractional CFO. I am going to provide you with a JSON object containing the financial ratios of my business.\n\nYour Task:\n\nExecutive Summary: Give me a 3-sentence \x27vibe check\x27 on the company\x27s health.\n\nThe Red Flags: Identify any ratios that suggest liquidity, solvency, or efficiency risks.\n\nThe Green Flags: What are we doing exceptionally well?\n\nOperational Advice: Based on the \x27Operational\x27 and \x27DuPont\x27 sections, give me 3 actionable steps to improve profitability or cash flow.\n\nBenchmark Comparison: Compare these to standard healthy industry benchmarks (assume a general mid-market manufacturing/retail context).\n\nThe Data: "

/-- The fixed "CMO growth analyst" instruction template of
`construct_prompt_marketing` (`src/analysis.py:31-50`), up to the embedded
data. -/
def cmoPromptHeader : String :=
  "You are a data-driven Chief Marketing Officer (CMO) with a background in Growth Engineering and Unit Economics.\n\nTask: Analyze the provided Marketing & Customer Acquisition data and provide a high-level strategic evaluation.\n\nPlease structure your response as follows:\n\nThe Efficiency Score: On a scale of 1-10, how healthy is this growth engine? (Base this heavily on the LTV:CAC and Payback Period).\n\nGrowth vs. Burn: Are we spending too much to acquire customers, or are we being too conservative?\n\nThe Leaking Bucket Check: Analyze the Churn and Retention metrics. Is our growth sustainable, or are we losing customers too fast to keep the \"bucket\" full?\n\nCMO Recommendations: Provide 3 specific strategies to either:\n- Optimize CAC (if the payback period is too long).\n- Increase LTV (if the margin or retention is low).\n- Scale Spend (if the LTV:CAC is >3 and we should be \"pouring gas on the fire\").\n\nFinancial Alignment: Briefly explain how these marketing metrics will impact the company\x27s \"Bottom Line\" Net Income over the next 6 months.\n\nThe Data for Analysis: "

/-- The fixed "CEO synthesis" template of `construct_prompt_ceo`
(`src/analysis.py:56-75`), up to the first embedded narrative. -/
def ceoPromptHeader : String :=
  "You are the CEO of a high-growth company. You are presiding over a board meeting with your CFO and CMO.\n\nThe Objective: Synthesize the Financial Report and the Marketing Report to determine the company\x27s \"True North.\" You need to identify if the growth strategy is sustainable or if the company is at risk.\n\nAnalysis Requirements:\n\nThe Alignment Audit: Is the Marketing department spending cash at a rate that the Balance Sheet can support? Point out any friction between Marketing Spend and Net Income/Cash Reserves.\n\nUnit Economics vs. Overhead: The CMO reports on LTV/CAC (unit level), but the CFO reports on OpEx (company level). Are we \"profitable on a unit basis\" but \"losing money on a GAAP basis\"? Explain what this means for our runway.\n\nThe \"Growth-Profitability\" Seesaw: Should we:\n- Aggressive Growth: Pour more cash into marketing because the LTV/CAC and ROE justify it?\n- Operational Efficiency: Freeze marketing spend and focus on fixing the \"clogged\" inventory/assets identified by the CFO?\n- Capital Raise: Is our current trajectory going to require a debt or equity raise in the next 6-12 months?\n\nCEO Directive: Give 3 high-level directives. These should be \"Orders\" to your CFO and CMO to get them in sync.\n\nCFO DATA (Financials): "

/-- The spec function `build_financial_prompt` (spec section 4.2): the prompt string
that embeds the full financial report, pretty-printed, in the fixed CFO
template. -/
def build_financial_prompt (r : FinReport) : String :=
  cfoPromptHeader ++ jsonDumpsFin r

/-- The spec function `build_marketing_prompt` (spec section 4.2). -/
def build_marketing_prompt (r : MktReport) : String :=
  cmoPromptHeader ++ jsonDumpsMkt r

/-- The spec function `build_ceo_prompt` (spec section 4.2): both prior narrative
texts embedded verbatim. -/
def build_ceo_prompt (financial_report marketing_report : String) : String :=
  ceoPromptHeader ++ financial_report ++ "\n\nCMO DATA (Marketing): " ++ marketing_report

/-- The error raised by the external text-generation collaborator
(spec section 6: `GenerationError` with an opaque message). -/
structure GenError where
  msg : String

/-- The external collaborator `call_llm` (`src/llm_client.py:69`), modelled
as a stub `gen` applied to the index of the call and the prompt; the call
counter is threaded so that call order is observable. -/
def call_llm (gen : ℕ → String → Except GenError String) (k : ℕ) (prompt : String) :
    Except GenError (String × ℕ) :=
  match gen k prompt with
  | .ok s => .ok (s, k + 1)
  | .error e => .error e

/-- `construct_prompt_financial` (`src/analysis.py:9-26`): builds the CFO
prompt around the serialized report and returns the collaborator response. -/
def construct_prompt_financial (gen : ℕ → String → Except GenError String) (k : ℕ)
    (results : FinReport) : Except GenError (String × ℕ) :=
  call_llm gen k (cfoPromptHeader ++ jsonDumpsFin results)

/-- `construct_prompt_marketing` (`src/analysis.py:29-51`). -/
def construct_prompt_marketing (gen : ℕ → String → Except GenError String) (k : ℕ)
    (results : MktReport) : Except GenError (String × ℕ) :=
  call_llm gen k (cmoPromptHeader ++ jsonDumpsMkt results)

/-- `construct_prompt_ceo` (`src/analysis.py:54-76`). -/
def construct_prompt_ceo (gen : ℕ → String → Except GenError String) (k : ℕ)
    (financial_report marketing_report : String) : Except GenError (String × ℕ) :=
  call_llm gen k
    (ceoPromptHeader ++ financial_report ++ "\n\nCMO DATA (Marketing): " ++ marketing_report)

/-- `financial_analysis` (`src/analysis.py:79-146`): computes the metrics
dict and obtains the CFO narrative from the collaborator; returns both. -/
def financial_analysis (gen : ℕ → String → Except GenError String) (k : ℕ)
    (i : RawFinancialInputs) : Except GenError ((FinReport × String) × ℕ) :=
  let res := financial_results i
  match construct_prompt_financial gen k res with
  | .ok (s, k2) => .ok ((res, s), k2)
  | .error e => .error e

/-- `analyze_marketing_performance` (`src/analysis.py:149-195`). -/
def analyze_marketing_performance (gen : ℕ → String → Except GenError String) (k : ℕ)
    (m : RawMarketingInputs) : Except GenError ((MktReport × String) × ℕ) :=
  let res := marketing_results m
  match construct_prompt_marketing gen k res with
  | .ok (s, k2) => .ok ((res, s), k2)
  | .error e => .error e

/-- The result record of `analyze_business` (`src/analysis.py:230-236`). -/
structure BusinessResult where
  financial_metrics : FinReport
  financial_report : String
  marketing_metrics : MktReport
  marketing_report : String
  ceo_report : String

/-- `analyze_business` (`src/analysis.py:198-236`): financial analysis, then
marketing analysis, then the CEO synthesis, each waiting on the previous
collaborator call; any collaborator error aborts the rest. -/
def analyze_business (gen : ℕ → String → Except GenError String)
    (fin : RawFinancialInputs) (mkt : RawMarketingInputs) : Except GenError BusinessResult :=
  match financial_analysis gen 0 fin with
  | .error e => .error e
  | .ok ((fm, fr), k1) =>
    match analyze_marketing_performance gen k1 mkt with
    | .error e => .error e
    | .ok ((mm, mr), k2) =>
      match construct_prompt_ceo gen k2 fr mr with
      | .error e => .error e
      | .ok (cr, _) =>
        .ok { financial_metrics := fm, financial_report := fr,
              marketing_metrics := mm, marketing_report := mr, ceo_report := cr }


/-- A source-style guarded division never fails and produces the guarded
quotient. -/
theorem guardedDiv_eq (a b : ℚ) :
    (if b ≠ 0 then div? a b else pure 0) = some (if b ≠ 0 then a / b else 0) := by
  by_cases h : b = 0 <;> simp [div?, h]

/-- The `interval_measure` guard: `COGS` nonzero makes `COGS / 365` a valid
divisor. -/
theorem guardedDiv365_eq (a b : ℚ) :
    (if b ≠ 0 then div? a (b / 365) else pure 0)
      = some (if b ≠ 0 then a / (b / 365) else 0) := by
  by_cases h : b = 0
  · simp [h]
  · have h365 : b / 365 ≠ 0 := div_ne_zero h (by norm_num)
    simp [div?, h, h365]

/-- The `pe_ratio` guard: both `Net_Income` and `shares_outstanding` nonzero
make both nested divisions valid. -/
theorem guardedDivPE_eq (sp ni sh : ℚ) :
    (if ni ≠ 0 ∧ sh ≠ 0 then (div? ni sh).bind fun eps => div? sp eps else pure 0)
      = some (if ni ≠ 0 ∧ sh ≠ 0 then sp / (ni / sh) else 0) := by
  by_cases h : ni ≠ 0 ∧ sh ≠ 0
  · have heps : ni / sh ≠ 0 := div_ne_zero h.1 h.2
    rw [if_pos h, if_pos h]
    simp [div?, h.1, h.2, heps]
  · simp [h]

/-- C2 — safety.  For all (exact-rational, hence finite) inputs the financial
metrics computation never raises: every division performed by
`financial_analysis` (`src/analysis.py:96-128`), when executed through
checked division (`ZeroDivisionError` modelled as `none`), succeeds and
yields exactly the value that `financial_results` places in the report.
Every leaf of the report is a rational number, hence finite — the
exact-arithmetic model has no NaN or Infinity by construction. -/
theorem financial_analysis_never_raises (i : RawFinancialInputs) :
    current_ratioChecked i = some (current_ratio i)
    ∧ quick_ratioChecked i = some (quick_ratio i)
    ∧ cash_ratioChecked i = some (cash_ratio i)
    ∧ interval_measureChecked i = some (interval_measure i)
    ∧ total_debt_ratioChecked i = some (total_debt_ratio i)
    ∧ equity_multiplierChecked i = some (equity_multiplier i)
    ∧ ltd_ratioChecked i = some (ltd_ratio i)
    ∧ tieChecked i = some (tie i)
    ∧ cash_coverageChecked i = some (cash_coverage i)
    ∧ total_asset_turnoverChecked i = some (total_asset_turnover i)
    ∧ nwc_turnoverChecked i = some (nwc_turnover i)
    ∧ fixed_asset_turnoverChecked i = some (fixed_asset_turnover i)
    ∧ gross_marginChecked i = some (gross_margin i)
    ∧ profit_marginChecked i = some (profit_margin i)
    ∧ roaChecked i = some (roa i)
    ∧ roeChecked i = some (roe i)
    ∧ pe_ratioChecked i = some (pe_ratio i)
    ∧ market_to_bookChecked i = some (market_to_book i)
    ∧ price_salesChecked i = some (price_sales i)
    ∧ ev_ebitdaChecked i = some (ev_ebitda i)
    ∧ inv_turnoverChecked i = some (inv_turnover i)
    ∧ days_sales_invChecked i = some (days_sales_inv i)
    ∧ rec_turnoverChecked i = some (rec_turnover i)
    ∧ days_sales_recChecked i = some (days_sales_rec i) := by
  have h_current_ratio : current_ratioChecked i = some (current_ratio i) := by
    simp only [current_ratioChecked, current_ratio, guardedDiv_eq]
  have h_quick_ratio : quick_ratioChecked i = some (quick_ratio i) := by
    simp only [quick_ratioChecked, quick_ratio, guardedDiv_eq]
  have h_cash_ratio : cash_ratioChecked i = some (cash_ratio i) := by
    simp only [cash_ratioChecked, cash_ratio, guardedDiv_eq]
  have h_interval_measure : interval_measureChecked i = some (interval_measure i) := by
    simp only [interval_measureChecked, interval_measure, guardedDiv365_eq]
  have h_total_debt_ratio : total_debt_ratioChecked i = some (total_debt_ratio i) := by
    simp only [total_debt_ratioChecked, total_debt_ratio, guardedDiv_eq]
  have h_equity_multiplier : equity_multiplierChecked i = some (equity_multiplier i) := by
    simp only [equity_multiplierChecked, equity_multiplier, guardedDiv_eq]
  have h_ltd_ratio : ltd_ratioChecked i = some (ltd_ratio i) := by
    simp only [ltd_ratioChecked, ltd_ratio, guardedDiv_eq]
  have h_tie : tieChecked i = some (tie i) := by
    simp only [tieChecked, tie, guardedDiv_eq]
  have h_cash_coverage : cash_coverageChecked i = some (cash_coverage i) := by
    simp only [cash_coverageChecked, cash_coverage, guardedDiv_eq]
  have h_total_asset_turnover : total_asset_turnoverChecked i = some (total_asset_turnover i) := by
    simp only [total_asset_turnoverChecked, total_asset_turnover, guardedDiv_eq]
  have h_nwc_turnover : nwc_turnoverChecked i = some (nwc_turnover i) := by
    simp only [nwc_turnoverChecked, nwc_turnover, guardedDiv_eq]
  have h_fixed_asset_turnover : fixed_asset_turnoverChecked i = some (fixed_asset_turnover i) := by
    simp only [fixed_asset_turnoverChecked, fixed_asset_turnover, guardedDiv_eq]
  have h_gross_margin : gross_marginChecked i = some (gross_margin i) := by
    simp only [gross_marginChecked, gross_margin, guardedDiv_eq]
  have h_profit_margin : profit_marginChecked i = some (profit_margin i) := by
    simp only [profit_marginChecked, profit_margin, guardedDiv_eq]
  have h_roa : roaChecked i = some (roa i) := by
    simp only [roaChecked, roa, guardedDiv_eq]
  have h_roe : roeChecked i = some (roe i) := by
    simp only [roeChecked, roe, guardedDiv_eq]
  have h_pe_ratio : pe_ratioChecked i = some (pe_ratio i) := by
    simp only [pe_ratioChecked, pe_ratio, guardedDivPE_eq]
  have h_market_to_book : market_to_bookChecked i = some (market_to_book i) := by
    simp only [market_to_bookChecked, market_to_book, guardedDiv_eq]
  have h_price_sales : price_salesChecked i = some (price_sales i) := by
    simp only [price_salesChecked, price_sales, guardedDiv_eq]
  have h_ev_ebitda : ev_ebitdaChecked i = some (ev_ebitda i) := by
    simp only [ev_ebitdaChecked, ev_ebitda, guardedDiv_eq]
  have h_inv_turnover : inv_turnoverChecked i = some (inv_turnover i) := by
    simp only [inv_turnoverChecked, inv_turnover, guardedDiv_eq]
  have h_days_sales_inv : days_sales_invChecked i = some (days_sales_inv i) := by
    rw [days_sales_invChecked, h_inv_turnover, Option.some_bind, guardedDiv_eq, days_sales_inv]
  have h_rec_turnover : rec_turnoverChecked i = some (rec_turnover i) := by
    simp only [rec_turnoverChecked, rec_turnover, guardedDiv_eq]
  have h_days_sales_rec : days_sales_recChecked i = some (days_sales_rec i) := by
    rw [days_sales_recChecked, h_rec_turnover, Option.some_bind, guardedDiv_eq, days_sales_rec]
  exact ⟨h_current_ratio, h_quick_ratio, h_cash_ratio, h_interval_measure, h_total_debt_ratio, h_equity_multiplier, h_ltd_ratio, h_tie, h_cash_coverage, h_total_asset_turnover, h_nwc_turnover, h_fixed_asset_turnover, h_gross_margin, h_profit_margin, h_roa, h_roe, h_pe_ratio, h_market_to_book, h_price_sales, h_ev_ebitda, h_inv_turnover, h_days_sales_inv, h_rec_turnover, h_days_sales_rec⟩


/-- Rounding zero gives zero. -/
theorem pyRound_zero (n : ℕ) : pyRound 0 n = 0 := by
  have h0 : roundHalfEven ((0 : ℚ) * 10 ^ n) = 0 := by
    rw [zero_mul]
    exact roundHalfEven_lo (by norm_num) (by norm_num)
  rw [pyRound_eval h0]
  norm_num

/-- Formatting the zero rate gives the literal percent string. -/
theorem fmtPercent1_zero : fmtPercent1 0 = "0.0%" := by
  have h0 : roundHalfEven ((0 : ℚ) * 100 * 10) = 0 := by
    rw [zero_mul, zero_mul]
    exact roundHalfEven_lo (by norm_num) (by norm_num)
  rw [fmtPercent1_eval h0]
  decide

/-- C1 — functional correctness.  The universal zero-denominator policy:
whenever a ratio's designated denominator is zero, the ratio's value in the
report is exactly 0 (a defined value, never an error).  Enumerated per
denominator: `Current_Liab` (current/quick/cash), `COGS` (interval measure),
`Total_Assets` (debt ratio, total-asset turnover, ROA, efficiency lever and
hence calculated ROE), `shareholders_equity` (equity multiplier, ROE,
market-to-book, leverage lever and hence calculated ROE),
`long_term_debt + shareholders_equity` (LTD ratio), `Interest_Expense`
(TIE, cash coverage), `NWC` (NWC turnover), `fixed_assets_ppe` (fixed-asset
turnover), `Revenue` (gross margin, profit margin, price/sales,
profitability lever and hence calculated ROE), `Net_Income` or
`shares_outstanding` (P/E), `EBITDA` (EV/EBITDA), `inventory` (inventory
turnover and DSI), the computed `inv_turnover` (DSI), `accounts_receivable`
(receivables turnover and DSO), the computed `rec_turnover` (DSO); and in
the marketing report `new_customers_acquired` (CAC),
`total_customers_start_period` (churn rate, reported "0.0%"),
`starting_rev` (NRR), `churn_rate` (LTV), `cac` (LTV:CAC), ARPU or gross
margin (payback period), `marketing_spend` (efficiency ratio) and `Revenue`
(spend percentage). -/
theorem zero_denominator_yields_zero (i : RawFinancialInputs) (m : RawMarketingInputs) :
    (Current_Liab i = 0 →
      (financial_results i).Current = 0 ∧ (financial_results i).Quick = 0
        ∧ (financial_results i).Cash = 0)
    ∧ (i.COGS = 0 → (financial_results i).Interval = 0)
    ∧ (Total_Assets i = 0 →
      (financial_results i).Debt_Ratio = 0 ∧ (financial_results i).Total_Asset = 0
        ∧ (financial_results i).ROA = 0 ∧ (financial_results i).Efficiency_Lever = 0
        ∧ (financial_results i).Calculated_ROE = 0)
    ∧ (i.shareholders_equity = 0 →
      (financial_results i).Multiplier = 0 ∧ (financial_results i).ROE = 0
        ∧ (financial_results i).Market_Book = 0 ∧ (financial_results i).Leverage_Lever = 0
        ∧ (financial_results i).Calculated_ROE = 0)
    ∧ (i.long_term_debt + i.shareholders_equity = 0 → (financial_results i).LTD = 0)
    ∧ (i.Interest_Expense = 0 →
      (financial_results i).TIE = 0 ∧ (financial_results i).Cash_Coverage = 0)
    ∧ (NWC i = 0 → (financial_results i).NWC_Turnover = 0)
    ∧ (i.fixed_assets_ppe = 0 → (financial_results i).Fixed_Asset = 0)
    ∧ (i.Revenue = 0 →
      (financial_results i).Gross_Margin = 0 ∧ (financial_results i).Profit_Margin = 0
        ∧ (financial_results i).Price_Sales = 0 ∧ (financial_results i).Profitability_Lever = 0
        ∧ (financial_results i).Calculated_ROE = 0)
    ∧ (i.Net_Income = 0 ∨ i.shares_outstanding = 0 → (financial_results i).PE = 0)
    ∧ (i.EBITDA = 0 → (financial_results i).EV_EBITDA = 0)
    ∧ (i.inventory = 0 →
      (financial_results i).Inv_Turnover = 0 ∧ (financial_results i).DSI = 0)
    ∧ (inv_turnover i = 0 → (financial_results i).DSI = 0)
    ∧ (i.accounts_receivable = 0 →
      (financial_results i).Rec_Turnover = 0 ∧ (financial_results i).DSO = 0)
    ∧ (rec_turnover i = 0 → (financial_results i).DSO = 0)
    ∧ (m.new_customers_acquired = 0 → (marketing_results m).CAC = 0)
    ∧ (m.total_customers_start_period = 0 →
      churn_rate m = 0 ∧ (marketing_results m).Churn_Rate = "0.0%")
    ∧ (starting_rev m = 0 → (marketing_results m).Net_Revenue_Retention = "0.0%")
    ∧ (churn_rate m = 0 → (marketing_results m).LTV = 0)
    ∧ (cac m = 0 → (marketing_results m).LTV_CAC_Ratio = 0)
    ∧ (m.avg_revenue_per_user_monthly = 0 ∨ m.gross_margin_pct = 0 →
      (marketing_results m).Payback_Period_Months = 0)
    ∧ (m.marketing_spend = 0 → (marketing_results m).Marketing_Efficiency_Ratio = 0)
    ∧ (m.Revenue = 0 → (marketing_results m).Marketing_Spend_Pct = "0.0%") := by
  refine ⟨?_, ?_, ?_, ?_, ?_, ?_, ?_, ?_, ?_, ?_, ?_, ?_, ?_, ?_, ?_, ?_, ?_, ?_, ?_, ?_,
    ?_, ?_, ?_⟩
  · intro h
    refine ⟨?_, ?_, ?_⟩
    · show pyRound (current_ratio i) 2 = 0
      rw [current_ratio, if_neg (not_not_intro h), pyRound_zero]
    · show pyRound (quick_ratio i) 2 = 0
      rw [quick_ratio, if_neg (not_not_intro h), pyRound_zero]
    · show pyRound (cash_ratio i) 2 = 0
      rw [cash_ratio, if_neg (not_not_intro h), pyRound_zero]
  · intro h
    show pyRound (interval_measure i) 2 = 0
    rw [interval_measure, if_neg (not_not_intro h), pyRound_zero]
  · intro h
    have htat : total_asset_turnover i = 0 := by
      rw [total_asset_turnover, if_neg (not_not_intro h)]
    refine ⟨?_, ?_, ?_, ?_, ?_⟩
    · show pyRound (total_debt_ratio i) 2 = 0
      rw [total_debt_ratio, if_neg (not_not_intro h), pyRound_zero]
    · show pyRound (total_asset_turnover i) 2 = 0
      rw [htat, pyRound_zero]
    · show pyRound (roa i) 4 = 0
      rw [roa, if_neg (not_not_intro h), pyRound_zero]
    · show pyRound (total_asset_turnover i) 2 = 0
      rw [htat, pyRound_zero]
    · show pyRound (dupont_roe i) 4 = 0
      rw [dupont_roe, htat, mul_zero, zero_mul, pyRound_zero]
  · intro h
    have hem : equity_multiplier i = 0 := by
      rw [equity_multiplier, if_neg (not_not_intro h)]
    refine ⟨?_, ?_, ?_, ?_, ?_⟩
    · show pyRound (equity_multiplier i) 2 = 0
      rw [hem, pyRound_zero]
    · show pyRound (roe i) 4 = 0
      rw [roe, if_neg (not_not_intro h), pyRound_zero]
    · show pyRound (market_to_book i) 2 = 0
      rw [market_to_book, if_neg (not_not_intro h), pyRound_zero]
    · show pyRound (equity_multiplier i) 2 = 0
      rw [hem, pyRound_zero]
    · show pyRound (dupont_roe i) 4 = 0
      rw [dupont_roe, hem, mul_zero, pyRound_zero]
  · intro h
    show pyRound (ltd_ratio i) 2 = 0
    rw [ltd_ratio, if_neg (not_not_intro h), pyRound_zero]
  · intro h
    constructor
    · show pyRound (tie i) 2 = 0
      rw [tie, if_neg (not_not_intro h), pyRound_zero]
    · show pyRound (cash_coverage i) 2 = 0
      rw [cash_coverage, if_neg (not_not_intro h), pyRound_zero]
  · intro h
    show pyRound (nwc_turnover i) 2 = 0
    rw [nwc_turnover, if_neg (not_not_intro h), pyRound_zero]
  · intro h
    show pyRound (fixed_asset_turnover i) 2 = 0
    rw [fixed_asset_turnover, if_neg (not_not_intro h), pyRound_zero]
  · intro h
    have hpm : profit_margin i = 0 := by
      rw [profit_margin, if_neg (not_not_intro h)]
    refine ⟨?_, ?_, ?_, ?_, ?_⟩
    · show pyRound (gross_margin i) 4 = 0
      rw [gross_margin, if_neg (not_not_intro h), pyRound_zero]
    · show pyRound (profit_margin i) 4 = 0
      rw [hpm, pyRound_zero]
    · show pyRound (price_sales i) 4 = 0
      rw [price_sales, if_neg (not_not_intro h), pyRound_zero]
    · show pyRound (profit_margin i) 4 = 0
      rw [hpm, pyRound_zero]
    · show pyRound (dupont_roe i) 4 = 0
      rw [dupont_roe, hpm, zero_mul, zero_mul, pyRound_zero]
  · intro h
    have hc : ¬(i.Net_Income ≠ 0 ∧ i.shares_outstanding ≠ 0) := by
      rcases h with h | h
      · exact fun hcon => hcon.1 h
      · exact fun hcon => hcon.2 h
    show pyRound (pe_ratio i) 2 = 0
    rw [pe_ratio, if_neg hc, pyRound_zero]
  · intro h
    show pyRound (ev_ebitda i) 2 = 0
    rw [ev_ebitda, if_neg (not_not_intro h), pyRound_zero]
  · intro h
    have hturn : inv_turnover i = 0 := by
      rw [inv_turnover, if_neg (not_not_intro h)]
    constructor
    · show pyRound (inv_turnover i) 2 = 0
      rw [hturn, pyRound_zero]
    · show pyRound (days_sales_inv i) 2 = 0
      rw [days_sales_inv, if_neg (not_not_intro hturn), pyRound_zero]
  · intro h
    show pyRound (days_sales_inv i) 2 = 0
    rw [days_sales_inv, if_neg (not_not_intro h), pyRound_zero]
  · intro h
    have hturn : rec_turnover i = 0 := by
      rw [rec_turnover, if_neg (not_not_intro h)]
    constructor
    · show pyRound (rec_turnover i) 2 = 0
      rw [hturn, pyRound_zero]
    · show pyRound (days_sales_rec i) 2 = 0
      rw [days_sales_rec, if_neg (not_not_intro hturn), pyRound_zero]
  · intro h
    show pyRound (days_sales_rec i) 2 = 0
    rw [days_sales_rec, if_neg (not_not_intro h), pyRound_zero]
  · intro h
    have hcac : cac m = 0 := by
      rw [cac, if_neg]
      rw [h]
      exact lt_irrefl 0
    show pyRound (cac m) 2 = 0
    rw [hcac, pyRound_zero]
  · intro h
    have hch : churn_rate m = 0 := by
      rw [churn_rate, if_neg]
      rw [h]
      exact lt_irrefl 0
    refine ⟨hch, ?_⟩
    show fmtPercent1 (churn_rate m) = "0.0%"
    rw [hch, fmtPercent1_zero]
  · intro h
    have hn : nrr m = 0 := by
      rw [nrr, if_neg]
      rw [h]
      exact lt_irrefl 0
    show fmtPercent1 (nrr m) = "0.0%"
    rw [hn, fmtPercent1_zero]
  · intro h
    show pyRound (ltv m) 2 = 0
    rw [ltv, if_neg (by rw [h]; exact lt_irrefl 0), pyRound_zero]
  · intro h
    show pyRound (ltv_cac_ratio m) 2 = 0
    rw [ltv_cac_ratio, if_neg (by rw [h]; exact lt_irrefl 0), pyRound_zero]
  · intro h
    have hc : ¬(m.avg_revenue_per_user_monthly > 0 ∧ m.gross_margin_pct > 0) := by
      rcases h with h | h
      · rw [h]
        exact fun hcon => lt_irrefl 0 hcon.1
      · rw [h]
        exact fun hcon => lt_irrefl 0 hcon.2
    show pyRound (payback_period m) 1 = 0
    rw [payback_period, if_neg hc, pyRound_zero]
  · intro h
    show pyRound (marketing_efficiency_ratio m) 2 = 0
    rw [marketing_efficiency_ratio, if_neg (by rw [h]; exact lt_irrefl 0), pyRound_zero]
  · intro h
    show fmtPercent1 (marketing_spend_pct m) = "0.0%"
    rw [marketing_spend_pct, if_neg (by rw [h]; exact lt_irrefl 0), fmtPercent1_zero]

/-- Witness for C1: at the all-zero input every designated denominator is
zero and every corresponding reported ratio evaluates to 0 (percent fields
to "0.0%"). -/
theorem zero_denominator_yields_zero_witness :
    (financial_results ⟨0, 0, 0, 0, 0, 0, 0, 0, 0, 0, 0, 0, 0, 0, 0, 0, 0, 0, 0, 0, 0, 1⟩).Current = 0
    ∧ (financial_results ⟨0, 0, 0, 0, 0, 0, 0, 0, 0, 0, 0, 0, 0, 0, 0, 0, 0, 0, 0, 0, 0, 1⟩).Interval = 0
    ∧ (financial_results ⟨0, 0, 0, 0, 0, 0, 0, 0, 0, 0, 0, 0, 0, 0, 0, 0, 0, 0, 0, 0, 0, 1⟩).Debt_Ratio = 0
    ∧ (financial_results ⟨0, 0, 0, 0, 0, 0, 0, 0, 0, 0, 0, 0, 0, 0, 0, 0, 0, 0, 0, 0, 0, 1⟩).Multiplier = 0
    ∧ (financial_results ⟨0, 0, 0, 0, 0, 0, 0, 0, 0, 0, 0, 0, 0, 0, 0, 0, 0, 0, 0, 0, 0, 1⟩).LTD = 0
    ∧ (financial_results ⟨0, 0, 0, 0, 0, 0, 0, 0, 0, 0, 0, 0, 0, 0, 0, 0, 0, 0, 0, 0, 0, 1⟩).TIE = 0
    ∧ (financial_results ⟨0, 0, 0, 0, 0, 0, 0, 0, 0, 0, 0, 0, 0, 0, 0, 0, 0, 0, 0, 0, 0, 1⟩).NWC_Turnover = 0
    ∧ (financial_results ⟨0, 0, 0, 0, 0, 0, 0, 0, 0, 0, 0, 0, 0, 0, 0, 0, 0, 0, 0, 0, 0, 1⟩).Fixed_Asset = 0
    ∧ (financial_results ⟨0, 0, 0, 0, 0, 0, 0, 0, 0, 0, 0, 0, 0, 0, 0, 0, 0, 0, 0, 0, 0, 1⟩).Gross_Margin = 0
    ∧ (financial_results ⟨0, 0, 0, 0, 0, 0, 0, 0, 0, 0, 0, 0, 0, 0, 0, 0, 0, 0, 0, 0, 0, 1⟩).PE = 0
    ∧ (financial_results ⟨0, 0, 0, 0, 0, 0, 0, 0, 0, 0, 0, 0, 0, 0, 0, 0, 0, 0, 0, 0, 0, 1⟩).EV_EBITDA = 0
    ∧ (financial_results ⟨0, 0, 0, 0, 0, 0, 0, 0, 0, 0, 0, 0, 0, 0, 0, 0, 0, 0, 0, 0, 0, 1⟩).Inv_Turnover = 0
    ∧ (financial_results ⟨0, 0, 0, 0, 0, 0, 0, 0, 0, 0, 0, 0, 0, 0, 0, 0, 0, 0, 0, 0, 0, 1⟩).DSI = 0
    ∧ (financial_results ⟨0, 0, 0, 0, 0, 0, 0, 0, 0, 0, 0, 0, 0, 0, 0, 0, 0, 0, 0, 0, 0, 1⟩).Rec_Turnover = 0
    ∧ (financial_results ⟨0, 0, 0, 0, 0, 0, 0, 0, 0, 0, 0, 0, 0, 0, 0, 0, 0, 0, 0, 0, 0, 1⟩).DSO = 0
    ∧ (marketing_results ⟨0, 0, 0, 0, 0, 0, 0, 0⟩).CAC = 0
    ∧ (marketing_results ⟨0, 0, 0, 0, 0, 0, 0, 0⟩).Churn_Rate = "0.0%"
    ∧ (marketing_results ⟨0, 0, 0, 0, 0, 0, 0, 0⟩).Net_Revenue_Retention = "0.0%"
    ∧ (marketing_results ⟨0, 0, 0, 0, 0, 0, 0, 0⟩).LTV = 0
    ∧ (marketing_results ⟨0, 0, 0, 0, 0, 0, 0, 0⟩).LTV_CAC_Ratio = 0
    ∧ (marketing_results ⟨0, 0, 0, 0, 0, 0, 0, 0⟩).Payback_Period_Months = 0
    ∧ (marketing_results ⟨0, 0, 0, 0, 0, 0, 0, 0⟩).Marketing_Efficiency_Ratio = 0
    ∧ (marketing_results ⟨0, 0, 0, 0, 0, 0, 0, 0⟩).Marketing_Spend_Pct = "0.0%" := by
  obtain ⟨h1, h2, h3, h4, h5, h6, h7, h8, h9, h10, h11, h12, h13, h14, h15, h16, h17, h18,
      h19, h20, h21, h22, h23⟩ :=
    zero_denominator_yields_zero
      ⟨0, 0, 0, 0, 0, 0, 0, 0, 0, 0, 0, 0, 0, 0, 0, 0, 0, 0, 0, 0, 0, 1⟩
      ⟨0, 0, 0, 0, 0, 0, 0, 0⟩
  exact ⟨(h1 (by norm_num [Current_Liab])).1, h2 rfl,
    (h3 (by norm_num [Total_Assets, Current_Assets])).1, (h4 rfl).1, h5 (by norm_num),
    (h6 rfl).1, h7 (by norm_num [NWC, Current_Assets, Current_Liab]), h8 rfl, (h9 rfl).1,
    h10 (Or.inl rfl), h11 rfl, (h12 rfl).1,
    h13 (by rw [inv_turnover, if_neg (not_not_intro rfl)]), (h14 rfl).1,
    h15 (by rw [rec_turnover, if_neg (not_not_intro rfl)]),
    h16 rfl, (h17 rfl).2, h18 (by norm_num [starting_rev]),
    h19 (by rw [churn_rate, if_neg (lt_irrefl 0)]),
    h20 (by rw [cac, if_neg (lt_irrefl 0)]), h21 (Or.inl rfl), h22 rfl, h23 rfl⟩

/-- C3 — algebraic identity.  `Calculated_ROE` is by construction the
product of the three unrounded DuPont levers rounded to 4 places, and when
all three levers are computed from the same period (revenue, total assets
and equity all nonzero) the product equals `Net_Income / shareholders_equity`
exactly, so the calculated ROE coincides with the reported ROE. -/
theorem dupont_identity (i : RawFinancialInputs) :
    (financial_results i).Calculated_ROE
        = pyRound (profit_margin i * total_asset_turnover i * equity_multiplier i) 4
    ∧ (i.Revenue ≠ 0 → Total_Assets i ≠ 0 → i.shareholders_equity ≠ 0 →
        dupont_roe i = roe i
          ∧ (financial_results i).Calculated_ROE = (financial_results i).ROE) := by
  constructor
  · rfl
  · intro hR hT hS
    have h1 : dupont_roe i = roe i := by
      rw [dupont_roe, profit_margin, total_asset_turnover, equity_multiplier, roe,
        if_pos hR, if_pos hT, if_pos hS, if_pos hS]
      field_simp
    refine ⟨h1, ?_⟩
    show pyRound (dupont_roe i) 4 = pyRound (roe i) 4
    rw [h1]

/-- Witness for C3 at the all-ones statement period. -/
theorem dupont_identity_witness :
    dupont_roe ⟨1, 1, 1, 1, 1, 1, 1, 1, 1, 1, 1, 1, 1, 1, 1, 1, 1, 1, 1, 1, 0, 1⟩
        = roe ⟨1, 1, 1, 1, 1, 1, 1, 1, 1, 1, 1, 1, 1, 1, 1, 1, 1, 1, 1, 1, 0, 1⟩
    ∧ (financial_results ⟨1, 1, 1, 1, 1, 1, 1, 1, 1, 1, 1, 1, 1, 1, 1, 1, 1, 1, 1, 1, 0, 1⟩).Calculated_ROE
        = (financial_results ⟨1, 1, 1, 1, 1, 1, 1, 1, 1, 1, 1, 1, 1, 1, 1, 1, 1, 1, 1, 1, 0, 1⟩).ROE :=
  (dupont_identity ⟨1, 1, 1, 1, 1, 1, 1, 1, 1, 1, 1, 1, 1, 1, 1, 1, 1, 1, 1, 1, 0, 1⟩).2
    (by norm_num) (by norm_num [Total_Assets, Current_Assets]) (by norm_num)

/-- C4 counterexample — the claim ties `Status` to the reported (rounded)
`LTV_CAC_Ratio`, but the source decides `Status` on the unrounded ratio
(`src/analysis.py:190`): at an unrounded LTV:CAC of 2.996 the report shows
`LTV_CAC_Ratio = 3.0 ≥ 3` yet `Status = "Needs Optimization"`. -/
theorem marketing_status_counterexample :
    (marketing_results ⟨0, 1000, 1, 10, 1, 2996, 1, 0⟩).LTV_CAC_Ratio ≥ 3
    ∧ (marketing_results ⟨0, 1000, 1, 10, 1, 2996, 1, 0⟩).Status ≠ "Healthy" := by
  have hcac : cac ⟨0, 1000, 1, 10, 1, 2996, 1, 0⟩ = 1000 := by
    unfold cac; norm_num
  have hchurn : churn_rate ⟨0, 1000, 1, 10, 1, 2996, 1, 0⟩ = 1 := by
    unfold churn_rate lost_customers; norm_num
  have hltv : ltv ⟨0, 1000, 1, 10, 1, 2996, 1, 0⟩ = 2996 := by
    unfold ltv; rw [hchurn]; norm_num
  have hratio : ltv_cac_ratio ⟨0, 1000, 1, 10, 1, 2996, 1, 0⟩ = 749 / 250 := by
    unfold ltv_cac_ratio; rw [hltv, hcac]; norm_num
  have h300 : roundHalfEven ((749 / 250 : ℚ) * 10 ^ 2) = 300 := by
    have h := roundHalfEven_hi (q := (749 / 250 : ℚ) * 10 ^ 2) (z := 299)
      (by norm_num) (by norm_num)
    rw [h]
    decide
  constructor
  · show pyRound (ltv_cac_ratio ⟨0, 1000, 1, 10, 1, 2996, 1, 0⟩) 2 ≥ 3
    rw [hratio, pyRound_eval h300]
    norm_num
  · show (if ltv_cac_ratio ⟨0, 1000, 1, 10, 1, 2996, 1, 0⟩ ≥ 3 then "Healthy"
      else "Needs Optimization") ≠ "Healthy"
    rw [hratio, if_neg (by norm_num)]
    decide

/-- C4 amended — the status threshold is decided on the unrounded LTV:CAC
value, inclusively: `Status = "Healthy"` iff the unrounded `ltv_cac_ratio`
is at least 3; at an unrounded ratio of exactly 3.0 the status is "Healthy"
and at 2.99 it is "Needs Optimization".  (The reported rounded
`LTV_CAC_Ratio` field can disagree with the status near the threshold, as
the counterexample shows.) -/
theorem marketing_status_iff (m : RawMarketingInputs) :
    ((marketing_results m).Status = "Healthy" ↔ ltv_cac_ratio m ≥ 3)
    ∧ (marketing_results ⟨0, 1000, 1, 10, 1, 3000, 1, 0⟩).Status = "Healthy"
    ∧ (marketing_results ⟨0, 1000, 1, 10, 1, 2990, 1, 0⟩).Status = "Needs Optimization" := by
  refine ⟨?_, ?_, ?_⟩
  · show (if ltv_cac_ratio m ≥ 3 then "Healthy" else "Needs Optimization") = "Healthy"
      ↔ ltv_cac_ratio m ≥ 3
    by_cases hc : ltv_cac_ratio m ≥ 3
    · rw [if_pos hc]
      exact iff_of_true rfl hc
    · rw [if_neg hc]
      exact iff_of_false (by decide) hc
  · have hcac : cac ⟨0, 1000, 1, 10, 1, 3000, 1, 0⟩ = 1000 := by
      unfold cac; norm_num
    have hchurn : churn_rate ⟨0, 1000, 1, 10, 1, 3000, 1, 0⟩ = 1 := by
      unfold churn_rate lost_customers; norm_num
    have hltv : ltv ⟨0, 1000, 1, 10, 1, 3000, 1, 0⟩ = 3000 := by
      unfold ltv; rw [hchurn]; norm_num
    have hratio : ltv_cac_ratio ⟨0, 1000, 1, 10, 1, 3000, 1, 0⟩ = 3 := by
      unfold ltv_cac_ratio; rw [hltv, hcac]; norm_num
    show (if ltv_cac_ratio ⟨0, 1000, 1, 10, 1, 3000, 1, 0⟩ ≥ 3 then "Healthy"
      else "Needs Optimization") = "Healthy"
    rw [hratio, if_pos (by norm_num)]
  · have hcac : cac ⟨0, 1000, 1, 10, 1, 2990, 1, 0⟩ = 1000 := by
      unfold cac; norm_num
    have hchurn : churn_rate ⟨0, 1000, 1, 10, 1, 2990, 1, 0⟩ = 1 := by
      unfold churn_rate lost_customers; norm_num
    have hltv : ltv ⟨0, 1000, 1, 10, 1, 2990, 1, 0⟩ = 2990 := by
      unfold ltv; rw [hchurn]; norm_num
    have hratio : ltv_cac_ratio ⟨0, 1000, 1, 10, 1, 2990, 1, 0⟩ = 299 / 100 := by
      unfold ltv_cac_ratio; rw [hltv, hcac]; norm_num
    show (if ltv_cac_ratio ⟨0, 1000, 1, 10, 1, 2990, 1, 0⟩ ≥ 3 then "Healthy"
      else "Needs Optimization") = "Needs Optimization"
    rw [hratio, if_neg (by norm_num)]


/-- C10 — strict guards.  Every division guard in
`analyze_marketing_performance` compares with `> 0`, so any non-positive
denominator (zero or negative) collapses the corresponding metric to exactly
zero. -/
theorem nonpositive_denominators_collapse (m : RawMarketingInputs) :
    (m.new_customers_acquired ≤ 0 → (marketing_results m).CAC = 0)
    ∧ (m.total_customers_start_period ≤ 0 →
        churn_rate m = 0 ∧ (marketing_results m).Churn_Rate = "0.0%")
    ∧ (starting_rev m ≤ 0 → (marketing_results m).Net_Revenue_Retention = "0.0%")
    ∧ (churn_rate m ≤ 0 → (marketing_results m).LTV = 0)
    ∧ (cac m ≤ 0 → (marketing_results m).LTV_CAC_Ratio = 0)
    ∧ (m.avg_revenue_per_user_monthly ≤ 0 ∨ m.gross_margin_pct ≤ 0 →
        (marketing_results m).Payback_Period_Months = 0)
    ∧ (m.marketing_spend ≤ 0 → (marketing_results m).Marketing_Efficiency_Ratio = 0)
    ∧ (m.Revenue ≤ 0 → (marketing_results m).Marketing_Spend_Pct = "0.0%") := by
  refine ⟨?_, ?_, ?_, ?_, ?_, ?_, ?_, ?_⟩
  · intro h
    show pyRound (cac m) 2 = 0
    rw [cac, if_neg (not_lt.mpr h), pyRound_zero]
  · intro h
    have hch : churn_rate m = 0 := by rw [churn_rate, if_neg (not_lt.mpr h)]
    refine ⟨hch, ?_⟩
    show fmtPercent1 (churn_rate m) = "0.0%"
    rw [hch, fmtPercent1_zero]
  · intro h
    have hn : nrr m = 0 := by rw [nrr, if_neg (not_lt.mpr h)]
    show fmtPercent1 (nrr m) = "0.0%"
    rw [hn, fmtPercent1_zero]
  · intro h
    show pyRound (ltv m) 2 = 0
    rw [ltv, if_neg (not_lt.mpr h), pyRound_zero]
  · intro h
    show pyRound (ltv_cac_ratio m) 2 = 0
    rw [ltv_cac_ratio, if_neg (not_lt.mpr h), pyRound_zero]
  · intro h
    have hcond : ¬(m.avg_revenue_per_user_monthly > 0 ∧ m.gross_margin_pct > 0) := by
      rcases h with h | h
      · exact fun hc => absurd hc.1 (not_lt.mpr h)
      · exact fun hc => absurd hc.2 (not_lt.mpr h)
    show pyRound (payback_period m) 1 = 0
    rw [payback_period, if_neg hcond, pyRound_zero]
  · intro h
    show pyRound (marketing_efficiency_ratio m) 2 = 0
    rw [marketing_efficiency_ratio, if_neg (not_lt.mpr h), pyRound_zero]
  · intro h
    show fmtPercent1 (marketing_spend_pct m) = "0.0%"
    rw [marketing_spend_pct, if_neg (not_lt.mpr h), fmtPercent1_zero]

/-- Witness for C10 at concrete negative denominators. -/
theorem nonpositive_denominators_collapse_witness :
    (marketing_results ⟨0, -5, -1, -1, 0, 1, 0, 0⟩).CAC = 0
    ∧ (marketing_results ⟨0, -5, -1, -1, 0, 1, 0, 0⟩).Churn_Rate = "0.0%"
    ∧ (marketing_results ⟨0, -5, -1, -1, 0, 1, 0, 0⟩).Net_Revenue_Retention = "0.0%"
    ∧ (marketing_results ⟨0, -5, -1, -1, 0, 1, 0, 0⟩).LTV = 0
    ∧ (marketing_results ⟨0, -5, -1, -1, 0, 1, 0, 0⟩).LTV_CAC_Ratio = 0
    ∧ (marketing_results ⟨0, -5, -1, -1, 0, 1, 0, 0⟩).Payback_Period_Months = 0
    ∧ (marketing_results ⟨0, -5, -1, -1, 0, 1, 0, 0⟩).Marketing_Efficiency_Ratio = 0
    ∧ (marketing_results ⟨0, -5, -1, -1, 0, 1, 0, 0⟩).Marketing_Spend_Pct = "0.0%" := by
  have h := nonpositive_denominators_collapse ⟨0, -5, -1, -1, 0, 1, 0, 0⟩
  exact ⟨h.1 (by norm_num), (h.2.1 (by norm_num)).2,
    h.2.2.1 (by norm_num [starting_rev]),
    h.2.2.2.1 (by unfold churn_rate; norm_num),
    h.2.2.2.2.1 (by unfold cac; norm_num),
    h.2.2.2.2.2.1 (Or.inr (by norm_num)),
    h.2.2.2.2.2.2.1 (by norm_num),
    h.2.2.2.2.2.2.2 (by norm_num)⟩

/-- C8 — concrete example.  With `marketing_spend = 75000` and
`new_customers_acquired = 300` the reported CAC is 250; with
`start = 2000`, `end = 2200` the lost customers are `2000 + 300 - 2200 =
100`, the churn rate is `100 / 2000 = 0.05`, and the reported `Churn_Rate`
is the string "5.0%". -/
theorem marketing_example_values :
    cac ⟨1200000, 75000, 300, 2000, 2200, 50, 4 / 5, 0⟩ = 250
    ∧ (marketing_results ⟨1200000, 75000, 300, 2000, 2200, 50, 4 / 5, 0⟩).CAC = 250
    ∧ lost_customers ⟨1200000, 75000, 300, 2000, 2200, 50, 4 / 5, 0⟩ = 100
    ∧ churn_rate ⟨1200000, 75000, 300, 2000, 2200, 50, 4 / 5, 0⟩ = 1 / 20
    ∧ (marketing_results ⟨1200000, 75000, 300, 2000, 2200, 50, 4 / 5, 0⟩).Churn_Rate = "5.0%" := by
  have hcac : cac ⟨1200000, 75000, 300, 2000, 2200, 50, 4 / 5, 0⟩ = 250 := by
    unfold cac; norm_num
  have hlost : lost_customers ⟨1200000, 75000, 300, 2000, 2200, 50, 4 / 5, 0⟩ = 100 := by
    unfold lost_customers; norm_num
  have hchurn : churn_rate ⟨1200000, 75000, 300, 2000, 2200, 50, 4 / 5, 0⟩ = 1 / 20 := by
    unfold churn_rate lost_customers; norm_num
  refine ⟨hcac, ?_, hlost, hchurn, ?_⟩
  · show pyRound (cac ⟨1200000, 75000, 300, 2000, 2200, 50, 4 / 5, 0⟩) 2 = 250
    have h25000 : roundHalfEven ((250 : ℚ) * 10 ^ 2) = 25000 :=
      roundHalfEven_lo (by norm_num) (by norm_num)
    rw [hcac, pyRound_eval h25000]
    norm_num
  · show fmtPercent1 (churn_rate ⟨1200000, 75000, 300, 2000, 2200, 50, 4 / 5, 0⟩) = "5.0%"
    have h50 : roundHalfEven ((1 / 20 : ℚ) * 100 * 10) = 50 :=
      roundHalfEven_lo (by norm_num) (by norm_num)
    rw [hchurn, fmtPercent1_eval h50]
    decide

/-- A percentage string with exactly one decimal digit: an optional minus
sign, decimal digits, a point, a single digit, and a percent sign. -/
def isPct1 (s : String) : Prop :=
  ∃ (sgn : String) (j d : ℕ), d < 10 ∧ (sgn = "" ∨ sgn = "-")
    ∧ s = sgn ++ toString j ++ "." ++ toString d ++ "%" ∧ (toString d).length = 1

/-- Single decimal digits print as one character. -/
theorem toString_digit_length : ∀ k : ℕ, k < 10 → (toString k).length = 1 := by decide

/-- Every output of the percent formatter has the one-decimal percent
shape. -/
theorem isPct1_fmtPercent1 (q : ℚ) : isPct1 (fmtPercent1 q) := by
  refine ⟨if roundHalfEven (q * 100 * 10) < 0 then "-" else "",
    (roundHalfEven (q * 100 * 10)).natAbs / 10,
    (roundHalfEven (q * 100 * 10)).natAbs % 10,
    Nat.mod_lt _ (by norm_num), ?_, rfl,
    toString_digit_length _ (Nat.mod_lt _ (by norm_num))⟩
  by_cases h : roundHalfEven (q * 100 * 10) < 0
  · exact Or.inr (if_pos h)
  · exact Or.inl (if_neg h)

/-- `q` is an exact decimal with at most `n` digits after the point. -/
def hasDecimals (q : ℚ) (n : ℕ) : Prop :=
  ∃ z : ℤ, q = (z : ℚ) / 10 ^ n

/-- `pyRound` always produces an exact decimal of its precision. -/
theorem hasDecimals_pyRound (q : ℚ) (n : ℕ) : hasDecimals (pyRound q n) n :=
  ⟨roundHalfEven (q * 10 ^ n), rfl⟩

/-- C9 — output formatting.  The four percentage fields of the marketing
report are percent strings with exactly one decimal digit, and the numeric
fields are the corresponding `round(_, 2)` values (`round(_, 1)` for the
payback period), hence exact decimals of that precision. -/
theorem marketing_report_formatting (m : RawMarketingInputs) :
    ((marketing_results m).Marketing_Spend_Pct = fmtPercent1 (marketing_spend_pct m)
      ∧ isPct1 ((marketing_results m).Marketing_Spend_Pct))
    ∧ ((marketing_results m).Retention_Rate = fmtPercent1 (retention_rate m)
      ∧ isPct1 ((marketing_results m).Retention_Rate))
    ∧ ((marketing_results m).Churn_Rate = fmtPercent1 (churn_rate m)
      ∧ isPct1 ((marketing_results m).Churn_Rate))
    ∧ ((marketing_results m).Net_Revenue_Retention = fmtPercent1 (nrr m)
      ∧ isPct1 ((marketing_results m).Net_Revenue_Retention))
    ∧ ((marketing_results m).CAC = pyRound (cac m) 2
      ∧ hasDecimals ((marketing_results m).CAC) 2)
    ∧ ((marketing_results m).Marketing_Efficiency_Ratio = pyRound (marketing_efficiency_ratio m) 2
      ∧ hasDecimals ((marketing_results m).Marketing_Efficiency_Ratio) 2)
    ∧ ((marketing_results m).LTV = pyRound (ltv m) 2
      ∧ hasDecimals ((marketing_results m).LTV) 2)
    ∧ ((marketing_results m).LTV_CAC_Ratio = pyRound (ltv_cac_ratio m) 2
      ∧ hasDecimals ((marketing_results m).LTV_CAC_Ratio) 2)
    ∧ ((marketing_results m).Payback_Period_Months = pyRound (payback_period m) 1
      ∧ hasDecimals ((marketing_results m).Payback_Period_Months) 1) :=
  ⟨⟨rfl, isPct1_fmtPercent1 _⟩, ⟨rfl, isPct1_fmtPercent1 _⟩, ⟨rfl, isPct1_fmtPercent1 _⟩,
    ⟨rfl, isPct1_fmtPercent1 _⟩, ⟨rfl, hasDecimals_pyRound _ _⟩, ⟨rfl, hasDecimals_pyRound _ _⟩,
    ⟨rfl, hasDecimals_pyRound _ _⟩, ⟨rfl, hasDecimals_pyRound _ _⟩, ⟨rfl, hasDecimals_pyRound _ _⟩⟩


/-- A collaborator stub that succeeds on its first call and raises on every
later one. -/
def genStub (k : ℕ) (_ : String) : Except GenError String :=
  if k = 0 then .ok "FIN" else .error ⟨"quota exceeded"⟩

/-- A collaborator stub agreeing with `genStub` on the first two calls but
succeeding on the third. -/
def genStub2 (k : ℕ) (_ : String) : Except GenError String :=
  if k = 0 then .ok "FIN" else if k = 1 then .error ⟨"quota exceeded"⟩ else .ok "CEO"

/-- C5 — error propagation.  If the collaborator answers the first
(financial) call and raises `GenerationError` on the second (marketing)
call, `analyze_business` propagates exactly that error; the outcome is
independent of the collaborator behaviour from the third call on (the CEO
call is never made), and no partial result record is returned (the result
is the error, not an `.ok`). -/
theorem generation_error_propagates (fin : RawFinancialInputs) (mkt : RawMarketingInputs)
    (gen gen' : ℕ → String → Except GenError String) (s : String) (e : GenError)
    (h0 : gen 0 = gen' 0) (h1 : gen 1 = gen' 1)
    (hok : gen 0 (cfoPromptHeader ++ jsonDumpsFin (financial_results fin)) = .ok s)
    (herr : gen 1 (cmoPromptHeader ++ jsonDumpsMkt (marketing_results mkt)) = .error e) :
    analyze_business gen fin mkt = .error e
    ∧ analyze_business gen' fin mkt = .error e := by
  have hok' : gen' 0 (cfoPromptHeader ++ jsonDumpsFin (financial_results fin)) = .ok s := by
    rw [← h0]; exact hok
  have herr' : gen' 1 (cmoPromptHeader ++ jsonDumpsMkt (marketing_results mkt)) = .error e := by
    rw [← h1]; exact herr
  constructor <;>
    simp only [analyze_business, financial_analysis, analyze_marketing_performance,
      construct_prompt_financial, construct_prompt_marketing, call_llm,
      hok, herr, hok', herr', zero_add]

/-- Witness for C5: a stub raising on the second call propagates its error
through the full orchestration under either continuation. -/
theorem generation_error_propagates_witness :
    analyze_business genStub
        ⟨0, 0, 0, 0, 0, 0, 0, 0, 0, 0, 0, 0, 0, 0, 0, 0, 0, 0, 0, 0, 0, 1⟩
        ⟨0, 0, 0, 0, 0, 0, 0, 0⟩ = .error ⟨"quota exceeded"⟩
    ∧ analyze_business genStub2
        ⟨0, 0, 0, 0, 0, 0, 0, 0, 0, 0, 0, 0, 0, 0, 0, 0, 0, 0, 0, 0, 0, 1⟩
        ⟨0, 0, 0, 0, 0, 0, 0, 0⟩ = .error ⟨"quota exceeded"⟩ :=
  generation_error_propagates
    ⟨0, 0, 0, 0, 0, 0, 0, 0, 0, 0, 0, 0, 0, 0, 0, 0, 0, 0, 0, 0, 0, 1⟩
    ⟨0, 0, 0, 0, 0, 0, 0, 0⟩ genStub genStub2 "FIN" ⟨"quota exceeded"⟩
    (funext fun _ => rfl) (funext fun _ => rfl) rfl rfl

/-- A collaborator stub answering a fixed text unrelated to its prompt. -/
def genConst (_ : ℕ) (_ : String) : Except GenError String := .ok "X"

set_option maxRecDepth 8192 in
/-- C6 counterexample — `construct_prompt_financial` does not return the
formatted prompt string: it returns the collaborator response.  With a
collaborator answering "X", the call yields "X", which is not the CFO
prompt built from the report. -/
theorem construct_prompt_financial_counterexample :
    construct_prompt_financial genConst 0
        (financial_results ⟨0, 0, 0, 0, 0, 0, 0, 0, 0, 0, 0, 0, 0, 0, 0, 0, 0, 0, 0, 0, 0, 1⟩)
      = .ok ("X", 1)
    ∧ "X" ≠ build_financial_prompt
        (financial_results ⟨0, 0, 0, 0, 0, 0, 0, 0, 0, 0, 0, 0, 0, 0, 0, 0, 0, 0, 0, 0, 0, 1⟩) := by
  refine ⟨rfl, ?_⟩
  intro hcontra
  have hhead : ("X").data.head? = (build_financial_prompt
      (financial_results ⟨0, 0, 0, 0, 0, 0, 0, 0, 0, 0, 0, 0, 0, 0, 0, 0, 0, 0, 0, 0, 0, 1⟩)).data.head? := by
    rw [hcontra]
  exact absurd hhead (by decide)

/-- C6 amended — `construct_prompt_financial` builds exactly the fixed
Fractional-CFO template with the pretty-printed report embedded (the spec
prompt `build_financial_prompt report`), passes it unchanged to the
collaborator, and returns the collaborator response; it neither mutates nor
re-derives any metric value (the prompt is a pure function of the report). -/
theorem construct_prompt_financial_sends_prompt
    (gen : ℕ → String → Except GenError String) (k : ℕ) (r : FinReport) :
    construct_prompt_financial gen k r = call_llm gen k (build_financial_prompt r) := rfl

/-- C7 — prompt determinism.  The prompt builders are pure functions of the
report with a fixed serialization order, so equal-valued reports give
byte-identical prompt strings. -/
theorem prompt_determinism (r1 r2 : FinReport) (m1 m2 : MktReport)
    (hr : r1 = r2) (hm : m1 = m2) :
    build_financial_prompt r1 = build_financial_prompt r2
    ∧ build_marketing_prompt m1 = build_marketing_prompt m2 := by
  rw [hr, hm]
  exact ⟨rfl, rfl⟩

/-- Witness for C7 at concrete reports. -/
theorem prompt_determinism_witness :
    build_financial_prompt
        (financial_results ⟨1, 1, 1, 1, 1, 1, 1, 1, 1, 1, 1, 1, 1, 1, 1, 1, 1, 1, 1, 1, 0, 1⟩)
      = build_financial_prompt
        (financial_results ⟨1, 1, 1, 1, 1, 1, 1, 1, 1, 1, 1, 1, 1, 1, 1, 1, 1, 1, 1, 1, 0, 1⟩)
    ∧ build_marketing_prompt (marketing_results ⟨1, 1, 1, 1, 1, 1, 1, 1⟩)
      = build_marketing_prompt (marketing_results ⟨1, 1, 1, 1, 1, 1, 1, 1⟩) :=
  prompt_determinism _ _ _ _ rfl rfl


end PulseCheck
